import Mathlib

/-!
Verification of the request dispatch route of the Antigravity-Proxy
backend, a shallow embedding of src/backend/src/routes/gemini.js.

The route handler is modelled as a pure function from the decisions of
its collaborators (the model slot limiter, the account pool and the
upstream client, supplied as oracles in the input) to everything the
handler does: the reply it sends, the server-sent events it writes, the
pool operations it performs, the sleeps it takes and the request log
record it creates in its finally block.
-/

/-- Token usage snapshot extracted from a usageMetadata object
(gemini.js lines 167-174 and 257-265). -/
structure Usage where
  promptTokens : Nat
  completionTokens : Nat
  totalTokens : Nat
  thinkingTokens : Nat
deriving DecidableEq

/-- An error thrown by the upstream client: its message and, when the
upstream answered with a non 2xx HTTP status, that status, read as
err.upstreamStatus at gemini.js line 87. -/
structure UpErr where
  message : String
  upstreamStatus : Option Nat
deriving DecidableEq

/-- One chunk handed by streamChat to the emit callback of gemini.js
lines 161-180. JSON.parse on the raw data either succeeds, which the
model records as the unwrapped payload produced by
unwrapAntigravityResponse together with the optional usageMetadata
snapshot, or throws, in which case the route ignores the chunk. -/
inductive Chunk where
  | ok (unwrapped : String) (usage : Option Usage)
  | bad (raw : String)
deriving DecidableEq

/-- Whether JSON.parse failed on the chunk. -/
def Chunk.isBad : Chunk → Bool
  | .ok _ _ => false
  | .bad _ => true

/-- The behaviour of one streamChat call (gemini.js lines 158-183): the
chunks handed to the emit callback in order, then either a clean
resolution or a rejection carrying an error; aborted records whether
abortController.signal.aborted held when the rejection was caught at
line 188, that is, whether the caller had disconnected. -/
inductive StreamOutcome where
  | success (chunks : List Chunk)
  | failure (chunks : List Chunk) (e : UpErr) (aborted : Bool)
deriving DecidableEq

/-- The behaviour of one non-streaming chat call (gemini.js line 237):
it resolves with a response, modelled after unwrapping at line 256 with
its optional usageMetadata snapshot, or rejects with an error. -/
inductive ChatOutcome where
  | success (unwrapped : String) (usage : Option Usage)
  | failure (e : UpErr)
deriving DecidableEq

/-- A server-sent event written on reply.raw after the headers are
flushed: either a data event for one unwrapped chunk (line 176) or an
error chunk object with its message, type and optional code fields
(lines 206 and 214). Each event is serialized as a data: line followed
by a blank line. -/
inductive SSEvent where
  | data (payload : String)
  | errorEvent (message : String) (etype : String) (code : Option String)
deriving DecidableEq

/-- Whether the event is a data event rather than an error chunk. -/
def SSEvent.isData : SSEvent → Bool
  | .data _ => true
  | .errorEvent _ _ _ => false

/-- Whether the event, if it is an error chunk, carries a code field. -/
def errorEventHasCode : SSEvent → Bool
  | .data _ => true
  | .errorEvent _ _ (some _) => true
  | .errorEvent _ _ none => false

/-- The error chunks among a list of written events. -/
def errorEventsOf (evs : List SSEvent) : List SSEvent :=
  evs.filter (fun ev => !ev.isData)

/-- Calls made by the route into the account pool, in program order. -/
inductive PoolOp where
  | getBest (accId : Nat)
  | unlock (accId : Nat)
  | markLimited (accId : Nat) (msg : String)
  | markRecovered (accId : Nat)
  | markError (accId : Nat)
deriving DecidableEq

/-- The record passed to createRequestLog in the finally block,
gemini.js lines 291-302. -/
structure LogRecord where
  accountId : Option Nat
  status : String
  errorMessage : Option String
  promptTokens : Nat
  completionTokens : Nat
  totalTokens : Nat
  thinkingTokens : Nat
deriving DecidableEq

/-- Builds the createRequestLog record from the status, errorMessage
and usage variables at the finally block. -/
def mkLog (acc : Option Nat) (status : String) (errMsg : Option String)
    (usage : Option Usage) : LogRecord :=
  { accountId := acc
    status := status
    errorMessage := errMsg
    promptTokens := (usage.map (·.promptTokens)).getD 0
    completionTokens := (usage.map (·.completionTokens)).getD 0
    totalTokens := (usage.map (·.totalTokens)).getD 0
    thinkingTokens := (usage.map (·.thinkingTokens)).getD 0 }

/-- A JSON body sent through reply.code(...).send(...): the unwrapped
upstream response (line 268) or an error object with message, optional
type and code fields (lines 96-98 and 284). -/
inductive RespBody where
  | ok (unwrapped : String)
  | err (message : String) (etype : Option String) (code : String)
deriving DecidableEq

/-- Char-list test that the first list occurs at the head of the
second, comparing characters exactly. -/
def isPrefixOfCL : List Char → List Char → Bool
  | [], _ => true
  | _ :: _, [] => false
  | a :: as, b :: bs => a == b && isPrefixOfCL as bs

/-- Substring occurrence test over char lists, scanning start
positions left to right. -/
def includesCL (needle : List Char) : List Char → Bool
  | [] => isPrefixOfCL needle []
  | c :: cs => isPrefixOfCL needle (c :: cs) || includesCL needle cs

/-- String.prototype.includes: case-sensitive substring containment,
as used by isCapacityError at gemini.js lines 84-86. -/
def includesStr (hay needle : String) : Bool :=
  includesCL needle.data hay.data

/-- isCapacityError from gemini.js lines 81-89: the message contains
one of three markers, or the upstream HTTP status was 429. -/
def isCapacityError (e : UpErr) : Bool :=
  includesStr e.message "exhausted your capacity on this model" ||
  includesStr e.message "Resource has been exhausted" ||
  includesStr e.message "No capacity available" ||
  e.upstreamStatus == some 429

/-- ASCII lower casing, modelling the effect of the regex i flag on the
characters that occur in the pattern at gemini.js line 26. -/
def lcChar (c : Char) : Char :=
  if 'A' ≤ c && c ≤ 'Z' then Char.ofNat (c.toNat + 32) else c

/-- Case-insensitive character comparison (regex i flag). -/
def ciEq (a b : Char) : Bool := lcChar a == lcChar b

/-- Case-insensitive literal match at the head of the input, returning
the remaining input on success. -/
def ciLiteral : List Char → List Char → Option (List Char)
  | [], s => some s
  | _ :: _, [] => none
  | p :: ps, c :: cs => if ciEq p c then ciLiteral ps cs else none

/-- Greedy run of the letter d under the i flag, with the rest of the
input. The regex atom in the source is the two characters backslash
backslash followed by d+, and inside a JavaScript regex literal a
doubled backslash denotes one literal backslash character, so d+ here
really is the letter d repeated, not a digit class. -/
def takeDs : List Char → List Char × List Char
  | [] => ([], [])
  | c :: cs =>
    if ciEq 'd' c then
      let p := takeDs cs
      (c :: p.1, p.2)
    else ([], c :: cs)

/-- Attempt to match the regex literal of gemini.js line 26 at the
start of the input. The pattern written in the source is
reset after (backslash backslash d +) s with the i flag, which denotes
the text "reset after ", then one literal backslash, then one or more
letters d, then the letter s; the capture group holds the backslash
and the run of ds. Because the atom after d+ never matches a letter d,
greedy matching without backtracking computes the same result as the
JavaScript engine. -/
def matchResetAt (s : List Char) : Option (List Char) :=
  match ciLiteral "reset after ".data s with
  | none => none
  | some rest =>
    match rest with
    | '\\' :: rest2 =>
      let p := takeDs rest2
      if p.1.isEmpty then none
      else
        match p.2 with
        | c :: _ => if ciEq 's' c then some ('\\' :: p.1) else none
        | [] => none
    | _ => none

/-- First match of the pattern, scanning start positions left to right
as String.prototype.match does. -/
def findReset : List Char → Option (List Char)
  | [] => none
  | c :: cs =>
    match matchResetAt (c :: cs) with
    | some cap => some cap
    | none => findReset cs

/-- Decimal digit test. -/
def isDigitCh (c : Char) : Bool := '0' ≤ c && c ≤ '9'

/-- The maximal run of decimal digits at the head of the input. -/
def leadingDigits (s : List Char) : List Char := s.takeWhile isDigitCh

/-- Value of a digit run. -/
def digitsToNat (ds : List Char) : Nat :=
  ds.foldl (fun acc c => acc * 10 + (c.toNat - '0'.toNat)) 0

/-- Number.parseInt(str, 10): skip leading whitespace, accept one
optional sign, then read a maximal run of decimal digits; the result
is NaN, modelled as none, when that run is empty. -/
def parseIntDec (s : List Char) : Option Int :=
  let t := s.dropWhile (fun c => c == ' ' || c == '\t' || c == '\n' || c == '\r')
  match t with
  | '-' :: rest =>
    if (leadingDigits rest).isEmpty then none
    else some (-(digitsToNat (leadingDigits rest) : Int))
  | '+' :: rest =>
    if (leadingDigits rest).isEmpty then none
    else some ((digitsToNat (leadingDigits rest) : Int))
  | rest =>
    if (leadingDigits rest).isEmpty then none
    else some ((digitsToNat (leadingDigits rest) : Int))

/-- parseResetAfterMs from gemini.js lines 24-31. The argument is none
when the JavaScript value is absent; the empty string is likewise
falsy and returns null at line 25. When the regex matches, the first
capture group is fed to Number.parseInt; a NaN result fails the
Number.isFinite check and yields null, a negative value yields null,
and otherwise the result is (seconds + 1) * 1000. -/
def parseResetAfterMs (message : Option String) : Option Nat :=
  match message with
  | none => none
  | some msg =>
    if msg = "" then none
    else
      match findReset msg.data with
      | none => none
      | some cap =>
        match parseIntDec cap with
        | none => none
        | some n => if n < 0 then none else some ((n.toNat + 1) * 1000)

/-- The model id that switches the request type to image generation,
gemini.js line 119. -/
def imageGenModelId : String := "gemini-3-pro-image"

/-- generateSessionId from gemini.js lines 11-13. The parameter r
stands for the draw Math.floor(Math.random() * 9e18); the JavaScript
String(-r) prints the negated value in decimal, and String(-0) prints
the single digit 0. -/
def generateSessionId (r : Nat) : String := toString (-(r : Int))

/-- The generationConfig object as far as the route reads it. -/
structure GenerationConfig where
  candidateCount : Option Int
deriving DecidableEq

/-- The fields of the inner request that the route reads (gemini.js
lines 105-117 and 126): the optional sessionId string and the optional
generationConfig with its optional candidateCount. -/
structure InnerRequest where
  sessionId : Option String
  generationConfig : Option GenerationConfig
deriving DecidableEq

/-- Lines 112-117: a missing generationConfig is replaced by an empty
object, and an undefined candidateCount is set to 1. -/
def normalizeGenConfig (g : Option GenerationConfig) : GenerationConfig :=
  let gc := g.getD { candidateCount := none }
  { candidateCount := some (gc.candidateCount.getD 1) }

/-- Line 126: innerRequest.sessionId || generateSessionId(). The empty
string is falsy in JavaScript, so it is replaced as well. -/
def sessionIdOrSynth (sid : Option String) (r : Nat) : String :=
  match sid with
  | some s => if s = "" then generateSessionId r else s
  | none => generateSessionId r

/-- The upstream envelope built at gemini.js lines 121-131, restricted
to the fields the route itself determines. -/
structure Envelope where
  project : String
  requestId : String
  sessionId : String
  generationConfig : GenerationConfig
  model : String
  userAgent : String
  requestType : String
deriving DecidableEq

/-- antigravityRequestBase from gemini.js lines 102-131. The uuid
parameter stands for the uuidv4() draw at line 102 and r for the
Math.random draw inside generateSessionId. -/
def antigravityRequestBase (uuid : String) (model : String)
    (inner : InnerRequest) (r : Nat) : Envelope :=
  { project := ""
    requestId := "agent-" ++ uuid
    sessionId := sessionIdOrSynth inner.sessionId r
    generationConfig := normalizeGenConfig inner.generationConfig
    model := model
    userAgent := "antigravity"
    requestType := if model = imageGenModelId then "image_gen" else "agent" }


/-- Mutable state of the handler that the streaming attempt loop
updates (gemini.js lines 133-224): the pool operations performed so
far, the events written after the headers, the sleeps taken, the
length of streamChunksForLog, the sawAnyData and lastUsage variables,
and the number of upstream calls made. The same record carries the
state of the non-streaming loop, which leaves the stream fields at
their initial values. -/
structure LoopSt where
  ops : List PoolOp
  events : List SSEvent
  sleeps : List Nat
  chunksLogged : Nat
  sawAnyData : Bool
  lastUsage : Option Usage
  calls : Nat
deriving DecidableEq

/-- The state before the first attempt. -/
def initSt : LoopSt :=
  { ops := [], events := [], sleeps := [], chunksLogged := 0,
    sawAnyData := false, lastUsage := none, calls := 0 }

/-- The emit callback of gemini.js lines 161-180 applied to one chunk:
sawAnyData is set before JSON.parse runs; on a parse failure the chunk
is dropped; on success the usageMetadata snapshot, when present,
replaces lastUsage, the unwrapped payload is pushed onto
streamChunksForLog, and a data event is written. -/
def procChunk (st : LoopSt) : Chunk → LoopSt
  | .bad _ => { st with sawAnyData := true }
  | .ok unwrapped usage =>
    { st with
      sawAnyData := true
      lastUsage := match usage with | some u => some u | none => st.lastUsage
      chunksLogged := st.chunksLogged + 1
      events := st.events ++ [.data unwrapped] }

/-- The emit callback applied to the chunks of one attempt in order. -/
def procChunks (st : LoopSt) (chunks : List Chunk) : LoopSt :=
  chunks.foldl procChunk st

/-- How the streaming attempt loop of gemini.js lines 149-202 ends:
break on success at line 186, an error propagating to the catch at
line 203, or the early return at line 188 after the caller
disconnected. The Option Nat is the account variable at that point. -/
inductive StreamStep where
  | completed (st : LoopSt) (account : Option Nat)
  | threw (st : LoopSt) (e : UpErr) (account : Option Nat)
  | abortedReturn (st : LoopSt) (account : Option Nat)
deriving DecidableEq

/-- The loop state carried by a StreamStep. -/
def StreamStep.state : StreamStep → LoopSt
  | .completed st _ => st
  | .threw st _ _ => st
  | .abortedReturn st _ => st

/-- The while(true) loop at gemini.js lines 150-202. The oracle outs
gives, for each attempt number, the account id that getBestAccount
returns and the behaviour of the streamChat call made on it;
attemptPrev is the attempt counter before the increment at line 151.
On a capacity error the loop marks the account limited, unlocks it and
clears the account variable; it then retries only while
attempt <= maxRetries + 1 and nothing has been pushed onto
streamChunksForLog, sleeping for the parsed reset hint or
baseRetryDelayMs * attempt. That guard also bounds the recursion. -/
def streamLoop (outs : Nat → Nat × StreamOutcome)
    (maxRetries baseRetryDelayMs : Nat)
    (attemptPrev : Nat) (st : LoopSt) : StreamStep :=
  let attempt := attemptPrev + 1
  let acc := (outs attempt).1
  let st1 := { st with ops := st.ops ++ [.getBest acc], calls := st.calls + 1 }
  match (outs attempt).2 with
  | .success chunks =>
    let st2 := procChunks st1 chunks
    .completed { st2 with ops := st2.ops ++ [.markRecovered acc] } (some acc)
  | .failure chunks e aborted =>
    let st2 := procChunks st1 chunks
    if aborted then .abortedReturn st2 (some acc)
    else if isCapacityError e then
      let st3 := { st2 with ops := st2.ops ++ [.markLimited acc e.message, .unlock acc] }
      if _h : attempt ≤ maxRetries + 1 ∧ st3.chunksLogged = 0 then
        streamLoop outs maxRetries baseRetryDelayMs attempt
          { st3 with sleeps := st3.sleeps ++
              [(parseResetAfterMs (some e.message)).getD (baseRetryDelayMs * attempt)] }
      else .threw st3 e none
    else .threw st2 e (some acc)
termination_by maxRetries + 1 - attemptPrev
decreasing_by omega

/-- Everything observable about one streaming request: the JSON reply
when one is sent before the stream opens, the events written after the
headers, whether reply.raw.end() ran, the pool operations, the sleeps,
the number of upstream calls, the status and errorMessage variables at
the finally block, the createRequestLog record, and whether the model
slot was released. -/
structure StreamResult where
  reply : Option (Nat × RespBody)
  events : List SSEvent
  ended : Bool
  ops : List PoolOp
  sleeps : List Nat
  calls : Nat
  status : String
  errorMessage : Option String
  log : LogRecord
  slotReleased : Bool
deriving DecidableEq

/-- The unlock of the finally block at gemini.js line 288, performed
exactly when the account variable is still set. -/
def finishOps (ops : List PoolOp) (acc : Option Nat) : List PoolOp :=
  match acc with
  | some a => ops ++ [.unlock a]
  | none => ops

/-- Message of the empty upstream error chunk, gemini.js line 213. -/
def emptyUpstreamMsg : String := "Upstream returned empty response (no events)"

/-- The tail of the streaming branch (gemini.js lines 203-223) plus
the finally block: the catch at line 203 turns a thrown error into an
in-stream error chunk without a code field; the check at line 211 adds
the empty upstream error chunk when the attempt loop broke cleanly
with sawAnyData still false; the early return at line 188 skips both
checks and reply.raw.end(), leaving the usage variable null and the
status variable at its initial value success. -/
def renderStream (r : StreamStep) : StreamResult :=
  match r with
  | .completed st acc =>
    if st.sawAnyData then
      { reply := none, events := st.events, ended := true,
        ops := finishOps st.ops acc, sleeps := st.sleeps, calls := st.calls,
        status := "success", errorMessage := none,
        log := mkLog acc "success" none st.lastUsage, slotReleased := true }
    else
      { reply := none,
        events := st.events ++
          [.errorEvent emptyUpstreamMsg "api_error" (some "empty_upstream_response")],
        ended := true, ops := finishOps st.ops acc, sleeps := st.sleeps,
        calls := st.calls, status := "error",
        errorMessage := some emptyUpstreamMsg,
        log := mkLog acc "error" (some emptyUpstreamMsg) st.lastUsage,
        slotReleased := true }
  | .threw st e acc =>
    { reply := none,
      events := st.events ++ [.errorEvent e.message "api_error" none],
      ended := true, ops := finishOps st.ops acc, sleeps := st.sleeps,
      calls := st.calls, status := "error", errorMessage := some e.message,
      log := mkLog acc "error" (some e.message) st.lastUsage,
      slotReleased := true }
  | .abortedReturn st acc =>
    { reply := none, events := st.events, ended := false,
      ops := finishOps st.ops acc, sleeps := st.sleeps, calls := st.calls,
      status := "success", errorMessage := none,
      log := mkLog acc "success" none none, slotReleased := true }

/-- Inputs determining one streaming request: whether
acquireModelSlot(model) granted a slot at gemini.js line 92, the
UPSTREAM_CAPACITY_RETRIES and UPSTREAM_CAPACITY_RETRY_DELAY_MS
settings of lines 79-80 (defaults 2 and 1000), and the oracle giving
each attempt its account and its streamChat behaviour. -/
structure StreamInput where
  slotAvailable : Bool
  maxRetries : Nat
  baseRetryDelayMs : Nat
  outs : Nat → Nat × StreamOutcome

/-- The error body sent when acquireModelSlot refuses, lines 96-98. -/
def slotRejectBody : RespBody :=
  .err "Model concurrency limit reached, please retry later" none "model_concurrency_limit"

/-- The whole observable outcome of the slot rejection path at
gemini.js lines 93-100 plus its finally block: a 429 JSON reply, no
stream, no pool activity, no upstream call, an error log, and no slot
release since none was acquired. -/
def slotRejectStream : StreamResult :=
  { reply := some (429, slotRejectBody), events := [], ended := false,
    ops := [], sleeps := [], calls := 0, status := "error",
    errorMessage := some "Model concurrency limit reached",
    log := mkLog none "error" (some "Model concurrency limit reached") none,
    slotReleased := false }

/-- The streaming path of the route handler. -/
def runStream (inp : StreamInput) : StreamResult :=
  if inp.slotAvailable then
    renderStream (streamLoop inp.outs inp.maxRetries inp.baseRetryDelayMs 0 initSt)
  else slotRejectStream

/-- How the non-streaming attempt loop of gemini.js lines 229-254
ends: break on success at line 239 carrying the response, or a thrown
error reaching the outer catch at line 269. -/
inductive ChatStep where
  | completed (st : LoopSt) (unwrapped : String) (usage : Option Usage) (account : Option Nat)
  | threw (st : LoopSt) (e : UpErr) (account : Option Nat)
deriving DecidableEq

/-- The loop state carried by a ChatStep. -/
def ChatStep.state : ChatStep → LoopSt
  | .completed st _ _ _ => st
  | .threw st _ _ => st

/-- The while(true) loop at gemini.js lines 229-254, the non-streaming
twin of streamLoop. Its retry guard at line 245 checks only
attempt <= maxRetries + 1. -/
def chatLoop (outs : Nat → Nat × ChatOutcome)
    (maxRetries baseRetryDelayMs : Nat)
    (attemptPrev : Nat) (st : LoopSt) : ChatStep :=
  let attempt := attemptPrev + 1
  let acc := (outs attempt).1
  let st1 := { st with ops := st.ops ++ [.getBest acc], calls := st.calls + 1 }
  match (outs attempt).2 with
  | .success unwrapped usage =>
    .completed { st1 with ops := st1.ops ++ [.markRecovered acc] } unwrapped usage (some acc)
  | .failure e =>
    if isCapacityError e then
      let st2 := { st1 with ops := st1.ops ++ [.markLimited acc e.message, .unlock acc] }
      if _h : attempt ≤ maxRetries + 1 then
        chatLoop outs maxRetries baseRetryDelayMs attempt
          { st2 with sleeps := st2.sleeps ++
              [(parseResetAfterMs (some e.message)).getD (baseRetryDelayMs * attempt)] }
      else .threw st2 e none
    else .threw st1 e (some acc)
termination_by maxRetries + 1 - attemptPrev
decreasing_by omega

/-- Everything observable about one non-streaming request. -/
structure ChatResult where
  reply : Nat × RespBody
  ops : List PoolOp
  sleeps : List Nat
  calls : Nat
  status : String
  errorMessage : Option String
  log : LogRecord
  slotReleased : Bool
deriving DecidableEq

/-- Lines 256-268 on success and the outer catch at lines 269-285 on a
thrown error, followed by the finally block. In the catch, the account
variable is still set only when the error was not routed through the
capacity branch of the loop, and it is marked limited or errored
accordingly; the HTTP status is 429 with code rate_limit_exceeded for
capacity errors and 500 with code internal_error otherwise. -/
def renderChat (r : ChatStep) : ChatResult :=
  match r with
  | .completed st unwrapped usage acc =>
    { reply := (200, .ok unwrapped), ops := finishOps st.ops acc,
      sleeps := st.sleeps, calls := st.calls, status := "success",
      errorMessage := none, log := mkLog acc "success" none usage,
      slotReleased := true }
  | .threw st e acc =>
    { reply := (if isCapacityError e then 429 else 500,
        .err e.message (some "api_error")
          (if isCapacityError e then "rate_limit_exceeded" else "internal_error"))
      ops := finishOps
        (match acc with
          | some a =>
            if isCapacityError e then st.ops ++ [.markLimited a e.message]
            else st.ops ++ [.markError a]
          | none => st.ops) acc
      sleeps := st.sleeps, calls := st.calls,
      status := "error", errorMessage := some e.message,
      log := mkLog acc "error" (some e.message) none, slotReleased := true }

/-- Inputs determining one non-streaming request. -/
structure ChatInput where
  slotAvailable : Bool
  maxRetries : Nat
  baseRetryDelayMs : Nat
  outs : Nat → Nat × ChatOutcome

/-- The slot rejection outcome on the non-streaming path. -/
def slotRejectChat : ChatResult :=
  { reply := (429, slotRejectBody), ops := [], sleeps := [], calls := 0,
    status := "error", errorMessage := some "Model concurrency limit reached",
    log := mkLog none "error" (some "Model concurrency limit reached") none,
    slotReleased := false }

/-- The non-streaming path of the route handler. -/
def runChat (inp : ChatInput) : ChatResult :=
  if inp.slotAvailable then
    renderChat (chatLoop inp.outs inp.maxRetries inp.baseRetryDelayMs 0 initSt)
  else slotRejectChat

theorem procChunk_ops (st : LoopSt) (c : Chunk) : (procChunk st c).ops = st.ops := by
  cases c <;> rfl

theorem procChunk_sleeps (st : LoopSt) (c : Chunk) : (procChunk st c).sleeps = st.sleeps := by
  cases c <;> rfl

theorem procChunk_calls (st : LoopSt) (c : Chunk) : (procChunk st c).calls = st.calls := by
  cases c <;> rfl

theorem procChunk_chunksLogged_le (st : LoopSt) (c : Chunk) :
    st.chunksLogged ≤ (procChunk st c).chunksLogged := by
  cases c <;> simp [procChunk]

theorem procChunks_ops : ∀ (chunks : List Chunk) (st : LoopSt),
    (procChunks st chunks).ops = st.ops
  | [], _ => rfl
  | c :: cs, st => by
    show (procChunks (procChunk st c) cs).ops = st.ops
    rw [procChunks_ops cs (procChunk st c), procChunk_ops]

theorem procChunks_sleeps : ∀ (chunks : List Chunk) (st : LoopSt),
    (procChunks st chunks).sleeps = st.sleeps
  | [], _ => rfl
  | c :: cs, st => by
    show (procChunks (procChunk st c) cs).sleeps = st.sleeps
    rw [procChunks_sleeps cs (procChunk st c), procChunk_sleeps]

theorem procChunks_calls : ∀ (chunks : List Chunk) (st : LoopSt),
    (procChunks st chunks).calls = st.calls
  | [], _ => rfl
  | c :: cs, st => by
    show (procChunks (procChunk st c) cs).calls = st.calls
    rw [procChunks_calls cs (procChunk st c), procChunk_calls]

theorem procChunks_chunksLogged_le : ∀ (chunks : List Chunk) (st : LoopSt),
    st.chunksLogged ≤ (procChunks st chunks).chunksLogged
  | [], _ => Nat.le_refl _
  | c :: cs, st =>
    Nat.le_trans (procChunk_chunksLogged_le st c)
      (procChunks_chunksLogged_le cs (procChunk st c))

theorem procChunk_chunksLogged (st : LoopSt) (c : Chunk) :
    (procChunk st c).chunksLogged = st.chunksLogged + (if c.isBad then 0 else 1) := by
  cases c <;> simp [procChunk, Chunk.isBad]

theorem procChunks_chunksLogged : ∀ (chunks : List Chunk) (st : LoopSt),
    (procChunks st chunks).chunksLogged
      = st.chunksLogged + chunks.countP (fun ch => !ch.isBad)
  | [], st => by simp [procChunks]
  | c :: cs, st => by
    show (procChunks (procChunk st c) cs).chunksLogged = _
    rw [procChunks_chunksLogged cs (procChunk st c), procChunk_chunksLogged]
    cases hc : c.isBad with
    | false => simp [List.countP_cons, hc]; omega
    | true => simp [List.countP_cons, hc]

theorem procChunk_events_data (st : LoopSt) (c : Chunk)
    (h : ∀ ev ∈ st.events, ev.isData = true) :
    ∀ ev ∈ (procChunk st c).events, ev.isData = true := by
  cases c with
  | bad raw => exact h
  | ok unwrapped usage =>
    intro ev hev
    simp only [procChunk, List.mem_append, List.mem_singleton] at hev
    rcases hev with hev | hev
    · exact h ev hev
    · subst hev; rfl

theorem procChunks_events_data : ∀ (chunks : List Chunk) (st : LoopSt),
    (∀ ev ∈ st.events, ev.isData = true) →
    ∀ ev ∈ (procChunks st chunks).events, ev.isData = true
  | [], _, h => h
  | c :: cs, st, h =>
    procChunks_events_data cs (procChunk st c) (procChunk_events_data st c h)

theorem procChunks_allBad : ∀ (chunks : List Chunk) (st : LoopSt),
    chunks ≠ [] → (∀ c ∈ chunks, c.isBad = true) →
    procChunks st chunks = { st with sawAnyData := true }
  | [], _, hne, _ => absurd rfl hne
  | c :: cs, st, _, hbad => by
    have hc : procChunk st c = { st with sawAnyData := true } := by
      cases c with
      | ok u us => exact absurd (hbad _ (List.mem_cons_self _ _)) (by simp [Chunk.isBad])
      | bad raw => rfl
    show procChunks (procChunk st c) cs = { st with sawAnyData := true }
    rw [hc]
    rcases cs with _ | ⟨c2, cs2⟩
    · rfl
    · rw [procChunks_allBad (c2 :: cs2) _ (by simp)
        (fun x hx => hbad x (List.mem_cons_of_mem _ hx))]

theorem errorEventsOf_allData (xs : List SSEvent)
    (h : ∀ ev ∈ xs, ev.isData = true) : errorEventsOf xs = [] := by
  simp only [errorEventsOf, List.filter_eq_nil_iff]
  intro ev hev
  simp [h ev hev]

theorem errorEventsOf_append (xs ys : List SSEvent) :
    errorEventsOf (xs ++ ys) = errorEventsOf xs ++ errorEventsOf ys := by
  simp [errorEventsOf, List.filter_append]

theorem streamLoop_events_data (outs : Nat → Nat × StreamOutcome) (maxR baseD : Nat) :
    ∀ (attemptPrev : Nat) (st : LoopSt),
      (∀ ev ∈ st.events, ev.isData = true) →
      ∀ ev ∈ ((streamLoop outs maxR baseD attemptPrev st).state).events, ev.isData = true := by
  intro attemptPrev st
  induction attemptPrev, st using streamLoop.induct outs maxR baseD with
  | case1 attemptPrev st attempt chunks hout =>
    intro hst
    have hout' : (outs (attemptPrev + 1)).2 = StreamOutcome.success chunks := hout
    rw [streamLoop, hout']
    simp only [StreamStep.state]
    exact procChunks_events_data chunks _ hst
  | case2 attemptPrev st attempt chunks e hout =>
    intro hst
    have hout' : (outs (attemptPrev + 1)).2 = StreamOutcome.failure chunks e true := hout
    rw [streamLoop, hout']
    simp only [if_pos rfl, StreamStep.state]
    exact procChunks_events_data chunks _ hst
  | case3 attemptPrev st attempt acc st1 chunks e aborted hout st2 hab hcap st3 hcond ih =>
    intro hst
    have hout' : (outs (attemptPrev + 1)).2 = StreamOutcome.failure chunks e aborted := hout
    rw [streamLoop, hout']
    simp only [if_neg hab, if_pos hcap]
    rw [dif_pos hcond]
    exact ih (procChunks_events_data chunks _ hst)
  | case4 attemptPrev st attempt acc st1 chunks e aborted hout st2 hab hcap st3 hcond =>
    intro hst
    have hout' : (outs (attemptPrev + 1)).2 = StreamOutcome.failure chunks e aborted := hout
    rw [streamLoop, hout']
    simp only [if_neg hab, if_pos hcap]
    rw [dif_neg hcond]
    simp only [StreamStep.state]
    exact procChunks_events_data chunks _ hst
  | case5 attemptPrev st attempt chunks e aborted hout hab hcap =>
    intro hst
    have hout' : (outs (attemptPrev + 1)).2 = StreamOutcome.failure chunks e aborted := hout
    rw [streamLoop, hout']
    simp only [if_neg hab, if_neg hcap, StreamStep.state]
    exact procChunks_events_data chunks _ hst

theorem streamLoop_calls_le (outs : Nat → Nat × StreamOutcome) (maxR baseD : Nat) :
    ∀ (attemptPrev : Nat) (st : LoopSt),
      ((streamLoop outs maxR baseD attemptPrev st).state).calls
        ≤ st.calls + 1 + (maxR + 1 - attemptPrev) := by
  intro attemptPrev st
  induction attemptPrev, st using streamLoop.induct outs maxR baseD with
  | case1 attemptPrev st attempt chunks hout =>
    have hout' : (outs (attemptPrev + 1)).2 = StreamOutcome.success chunks := hout
    rw [streamLoop, hout']
    simp only [StreamStep.state, procChunks_calls]
    omega
  | case2 attemptPrev st attempt chunks e hout =>
    have hout' : (outs (attemptPrev + 1)).2 = StreamOutcome.failure chunks e true := hout
    rw [streamLoop, hout']
    simp only [eq_self_iff_true, if_true, StreamStep.state, procChunks_calls]
    omega
  | case3 attemptPrev st attempt acc st1 chunks e aborted hout st2 hab hcap st3 hcond ih =>
    have hout' : (outs (attemptPrev + 1)).2 = StreamOutcome.failure chunks e aborted := hout
    have hle : attemptPrev + 1 ≤ maxR + 1 := hcond.1
    have h3 : st3.calls = st.calls + 1 := by
      show (procChunks st1 chunks).calls = st.calls + 1
      rw [procChunks_calls]
    have ha : attempt = attemptPrev + 1 := rfl
    rw [streamLoop, hout']
    simp only [if_neg hab, if_pos hcap]
    rw [dif_pos hcond]
    refine le_trans ih ?_
    show st3.calls + 1 + (maxR + 1 - attempt) ≤ st.calls + 1 + (maxR + 1 - attemptPrev)
    omega
  | case4 attemptPrev st attempt acc st1 chunks e aborted hout st2 hab hcap st3 hcond =>
    have hout' : (outs (attemptPrev + 1)).2 = StreamOutcome.failure chunks e aborted := hout
    have h3 : st3.calls = st.calls + 1 := by
      show (procChunks st1 chunks).calls = st.calls + 1
      rw [procChunks_calls]
    rw [streamLoop, hout']
    simp only [if_neg hab, if_pos hcap]
    rw [dif_neg hcond]
    simp only [StreamStep.state]
    show st3.calls ≤ st.calls + 1 + (maxR + 1 - attemptPrev)
    omega
  | case5 attemptPrev st attempt chunks e aborted hout hab hcap =>
    have hout' : (outs (attemptPrev + 1)).2 = StreamOutcome.failure chunks e aborted := hout
    rw [streamLoop, hout']
    simp only [if_neg hab, if_neg hcap, StreamStep.state, procChunks_calls]
    omega

theorem chatLoop_calls_le (outs : Nat → Nat × ChatOutcome) (maxR baseD : Nat) :
    ∀ (attemptPrev : Nat) (st : LoopSt),
      ((chatLoop outs maxR baseD attemptPrev st).state).calls
        ≤ st.calls + 1 + (maxR + 1 - attemptPrev) := by
  intro attemptPrev st
  induction attemptPrev, st using chatLoop.induct outs maxR baseD with
  | case1 attemptPrev st attempt unwrapped usage hout =>
    have hout' : (outs (attemptPrev + 1)).2 = ChatOutcome.success unwrapped usage := hout
    rw [chatLoop, hout']
    simp only [ChatStep.state]
    omega
  | case2 attemptPrev st attempt acc st1 e hout hcap st2 hle ih =>
    have hout' : (outs (attemptPrev + 1)).2 = ChatOutcome.failure e := hout
    have hle' : attemptPrev + 1 ≤ maxR + 1 := hle
    have h2 : st2.calls = st.calls + 1 := rfl
    have ha : attempt = attemptPrev + 1 := rfl
    rw [chatLoop, hout']
    simp only [if_pos hcap]
    rw [dif_pos hle]
    refine le_trans ih ?_
    show st2.calls + 1 + (maxR + 1 - attempt) ≤ st.calls + 1 + (maxR + 1 - attemptPrev)
    omega
  | case3 attemptPrev st attempt e hout hcap hgt =>
    have hout' : (outs (attemptPrev + 1)).2 = ChatOutcome.failure e := hout
    rw [chatLoop, hout']
    simp only [if_pos hcap]
    rw [dif_neg hgt]
    simp only [ChatStep.state]
    omega
  | case4 attemptPrev st attempt e hout hcap =>
    have hout' : (outs (attemptPrev + 1)).2 = ChatOutcome.failure e := hout
    rw [chatLoop, hout']
    simp only [if_neg hcap, ChatStep.state]
    omega

theorem renderStream_calls (r : StreamStep) :
    (renderStream r).calls = r.state.calls := by
  cases r with
  | completed st acc =>
    simp only [renderStream, StreamStep.state]
    split <;> rfl
  | threw st e acc => rfl
  | abortedReturn st acc => rfl

theorem renderChat_calls (r : ChatStep) :
    (renderChat r).calls = r.state.calls := by
  cases r <;> rfl

/-- Claim C1, counterexample. With the default capacityRetries = 2 the
claim allows at most 3 account selections and upstream calls, but a
non-streaming request whose attempts all fail with capacity errors
performs 4: the guard at gemini.js line 245 reads
attempt <= maxRetries + 1 and is checked after the failed attempt, so
it admits one more attempt than the claim states. -/
theorem c1_counterexample :
    (runChat ⟨true, 2, 1000, fun _ => (1, .failure ⟨"No capacity available", none⟩)⟩).calls = 4 ∧
    ¬ ((runChat ⟨true, 2, 1000, fun _ => (1, .failure ⟨"No capacity available", none⟩)⟩).calls
        ≤ 2 + 1) := by
  have hcap : isCapacityError ⟨"No capacity available", none⟩ = true := by decide
  have hpr : parseResetAfterMs (some "No capacity available") = none := by decide
  have h : (runChat ⟨true, 2, 1000,
      fun _ => (1, .failure ⟨"No capacity available", none⟩)⟩).calls = 4 := by
    simp [runChat, chatLoop, renderChat, initSt, hcap, hpr]
  exact ⟨h, by rw [h]; omega⟩

/-- Claim C1, amended: for every request, streaming or non-streaming,
the dispatcher performs at most maxRetries + 2 account selections and
upstream calls before surfacing the error to the caller; with the
default capacityRetries = 2 that is at most 4 attempts. -/
theorem c1_attempt_bound (ci : ChatInput) (si : StreamInput) :
    (runChat ci).calls ≤ ci.maxRetries + 2 ∧
    (runStream si).calls ≤ si.maxRetries + 2 := by
  constructor
  · cases hsl : ci.slotAvailable with
    | false => simp [runChat, hsl, slotRejectChat]
    | true =>
      simp only [runChat, if_pos hsl, renderChat_calls]
      refine le_trans (chatLoop_calls_le _ _ _ 0 initSt) ?_
      simp [initSt]
      omega
  · cases hsl : si.slotAvailable with
    | false => simp [runStream, hsl, slotRejectStream]
    | true =>
      simp only [runStream, if_pos hsl, renderStream_calls]
      refine le_trans (streamLoop_calls_le _ _ _ 0 initSt) ?_
      simp [initSt]
      omega

/-- Claim C3: the reset-hint parser is dead code. The regex literal at
gemini.js line 26 contains the two characters backslash backslash
before d+, which in a JavaScript regex literal match one literal
backslash followed by letters d, never decimal digits. Evaluated at a
message carrying a genuine hint, parseResetAfterMs returns none, and
the retry sleeps of a non-streaming request that keeps failing with
that message fall back to baseRetryDelay * attempt (1000, 2000, 3000)
instead of the claimed (4 + 1) * 1000. -/
theorem c3_reset_hint_never_parses :
    parseResetAfterMs (some "Resource has been exhausted reset after 4s") = none ∧
    parseResetAfterMs (some "reset after 4s") = none ∧
    (runChat ⟨true, 2, 1000,
        fun _ => (1, .failure ⟨"Resource has been exhausted reset after 4s", none⟩)⟩).sleeps
      = [1000, 2000, 3000] := by
  have hpr : parseResetAfterMs (some "Resource has been exhausted reset after 4s") = none := by
    decide
  have hcap : isCapacityError ⟨"Resource has been exhausted reset after 4s", none⟩ = true := by
    decide
  refine ⟨hpr, by decide, ?_⟩
  simp [runChat, chatLoop, renderChat, initSt, hcap, hpr]

/-- Claim C7: when acquireModelSlot refuses, the route answers 429
with the exact model_concurrency_limit body, performs no account
selection and no upstream call, and the finally block logs an error
row with message Model concurrency limit reached; this holds on both
the non-streaming and the streaming endpoint, where additionally no
stream event is written. -/
theorem c7_slot_rejection (ci : ChatInput) (si : StreamInput)
    (hc : ci.slotAvailable = false) (hs : si.slotAvailable = false) :
    (runChat ci).reply =
      (429, RespBody.err "Model concurrency limit reached, please retry later"
        none "model_concurrency_limit") ∧
    (runChat ci).calls = 0 ∧ (runChat ci).ops = [] ∧
    (runChat ci).log.status = "error" ∧
    (runChat ci).log.errorMessage = some "Model concurrency limit reached" ∧
    (runStream si).reply =
      some (429, RespBody.err "Model concurrency limit reached, please retry later"
        none "model_concurrency_limit") ∧
    (runStream si).events = [] ∧ (runStream si).calls = 0 ∧ (runStream si).ops = [] ∧
    (runStream si).log.status = "error" ∧
    (runStream si).log.errorMessage = some "Model concurrency limit reached" := by
  have h1 : runChat ci = slotRejectChat := by simp [runChat, hc]
  have h2 : runStream si = slotRejectStream := by simp [runStream, hs]
  rw [h1, h2]
  decide

/-- Claim C9: every upstream envelope has requestId equal to agent-
followed by the uuid draw, userAgent antigravity, requestType
image_gen exactly when the resolved model is the image generation
model id, sessionId equal to the caller sessionId when that is present
and nonempty and otherwise the synthesised negated random decimal
string, and a candidateCount defaulted to 1 whenever the caller omits
it. -/
theorem c9_envelope_fields (uuid model : String) (inner : InnerRequest) (r : Nat) :
    (antigravityRequestBase uuid model inner r).requestId = "agent-" ++ uuid ∧
    (antigravityRequestBase uuid model inner r).userAgent = "antigravity" ∧
    ((antigravityRequestBase uuid model inner r).requestType = "image_gen" ↔
      model = imageGenModelId) ∧
    (inner.sessionId = none →
      (antigravityRequestBase uuid model inner r).sessionId = generateSessionId r) ∧
    (∀ s, inner.sessionId = some s → s ≠ "" →
      (antigravityRequestBase uuid model inner r).sessionId = s) ∧
    (inner.generationConfig.bind (fun gc => gc.candidateCount) = none →
      (antigravityRequestBase uuid model inner r).generationConfig.candidateCount = some 1) := by
  refine ⟨rfl, rfl, ?_, ?_, ?_, ?_⟩
  · by_cases h : model = imageGenModelId
    · simp [antigravityRequestBase, h]
    · simp only [antigravityRequestBase, if_neg h]
      constructor
      · intro hq; exact absurd hq (by decide)
      · intro hq; exact absurd hq h
  · intro h
    simp [antigravityRequestBase, sessionIdOrSynth, h]
  · intro s hs hne
    simp [antigravityRequestBase, sessionIdOrSynth, hs, hne]
  · intro h
    rcases hgc : inner.generationConfig with _ | gc
    · simp [antigravityRequestBase, normalizeGenConfig, hgc]
    · rw [hgc] at h
      simp only [Option.bind] at h
      simp [antigravityRequestBase, normalizeGenConfig, hgc, h]

theorem streamLoop_capacity_stop (outs : Nat → Nat × StreamOutcome)
    (maxR baseD attemptPrev : Nat) (st : LoopSt) (acc : Nat)
    (chunks : List Chunk) (e : UpErr) (st2 : LoopSt)
    (hout2 : (outs (attemptPrev + 1)).2 = StreamOutcome.failure chunks e false)
    (hout1 : (outs (attemptPrev + 1)).1 = acc)
    (hst2 : st2 = procChunks
      { st with ops := st.ops ++ [PoolOp.getBest acc], calls := st.calls + 1 } chunks)
    (hcap : isCapacityError e = true)
    (hstop : ¬(attemptPrev + 1 ≤ maxR + 1 ∧ st2.chunksLogged = 0)) :
    streamLoop outs maxR baseD attemptPrev st =
      .threw { st2 with ops := st2.ops ++ [PoolOp.markLimited acc e.message, PoolOp.unlock acc] }
        e none := by
  subst hout1
  subst hst2
  rw [streamLoop, hout2]
  simp only [Bool.false_eq_true, if_false, hcap, eq_self_iff_true, if_true]
  rw [dif_neg hstop]

theorem streamLoop_aborted_step (outs : Nat → Nat × StreamOutcome)
    (maxR baseD attemptPrev : Nat) (st : LoopSt) (acc : Nat)
    (chunks : List Chunk) (e : UpErr) (st2 : LoopSt)
    (hout2 : (outs (attemptPrev + 1)).2 = StreamOutcome.failure chunks e true)
    (hout1 : (outs (attemptPrev + 1)).1 = acc)
    (hst2 : st2 = procChunks
      { st with ops := st.ops ++ [PoolOp.getBest acc], calls := st.calls + 1 } chunks) :
    streamLoop outs maxR baseD attemptPrev st = .abortedReturn st2 (some acc) := by
  subst hout1
  subst hst2
  rw [streamLoop, hout2]
  simp only [eq_self_iff_true, if_true]

/-- Claim C2: on a streaming request, once at least one data event has
been written to the caller (streamChunksForLog is nonempty), a
subsequent streamChat rejection with a capacity error performs exactly
one more upstream call and account selection, marks and unlocks that
account, sleeps no further, and surfaces a single in-stream error
event before the stream is closed; the loop never selects another
account. -/
theorem c2_no_retry_after_flush (outs : Nat → Nat × StreamOutcome)
    (maxR baseD attemptPrev : Nat) (st : LoopSt) (acc : Nat)
    (chunks : List Chunk) (e : UpErr)
    (hflushed : 0 < st.chunksLogged + chunks.countP (fun ch => !ch.isBad))
    (hev : ∀ ev ∈ st.events, ev.isData = true)
    (hout : outs (attemptPrev + 1) = (acc, StreamOutcome.failure chunks e false))
    (hcap : isCapacityError e = true) :
    (renderStream (streamLoop outs maxR baseD attemptPrev st)).calls = st.calls + 1 ∧
    (renderStream (streamLoop outs maxR baseD attemptPrev st)).ops =
      st.ops ++ [PoolOp.getBest acc, PoolOp.markLimited acc e.message, PoolOp.unlock acc] ∧
    (renderStream (streamLoop outs maxR baseD attemptPrev st)).sleeps = st.sleeps ∧
    errorEventsOf (renderStream (streamLoop outs maxR baseD attemptPrev st)).events
      = [SSEvent.errorEvent e.message "api_error" none] ∧
    (renderStream (streamLoop outs maxR baseD attemptPrev st)).ended = true ∧
    (renderStream (streamLoop outs maxR baseD attemptPrev st)).status = "error" := by
  have hout2 : (outs (attemptPrev + 1)).2 = StreamOutcome.failure chunks e false := by rw [hout]
  have hout1 : (outs (attemptPrev + 1)).1 = acc := by rw [hout]
  have hstop : ¬(attemptPrev + 1 ≤ maxR + 1 ∧
      (procChunks { st with ops := st.ops ++ [PoolOp.getBest acc], calls := st.calls + 1 }
        chunks).chunksLogged = 0) := by
    intro hc
    obtain ⟨h1, h2⟩ := hc
    rw [procChunks_chunksLogged] at h2
    have hbase : ({ st with ops := st.ops ++ [PoolOp.getBest acc], calls := st.calls + 1 } : LoopSt).chunksLogged = st.chunksLogged := rfl
    omega
  have hstep := streamLoop_capacity_stop outs maxR baseD attemptPrev st acc chunks e _
    hout2 hout1 rfl hcap hstop
  rw [hstep]
  have hdata : ∀ ev ∈ (procChunks
      { st with ops := st.ops ++ [PoolOp.getBest acc], calls := st.calls + 1 } chunks).events,
      ev.isData = true :=
    procChunks_events_data chunks _ hev
  refine ⟨?_, ?_, ?_, ?_, rfl, rfl⟩
  · show (procChunks { st with ops := st.ops ++ [PoolOp.getBest acc], calls := st.calls + 1 }
      chunks).calls = st.calls + 1
    rw [procChunks_calls]
  · show (procChunks { st with ops := st.ops ++ [PoolOp.getBest acc], calls := st.calls + 1 }
        chunks).ops ++ [PoolOp.markLimited acc e.message, PoolOp.unlock acc]
      = st.ops ++ [PoolOp.getBest acc, PoolOp.markLimited acc e.message, PoolOp.unlock acc]
    rw [procChunks_ops]
    simp
  · show (procChunks { st with ops := st.ops ++ [PoolOp.getBest acc], calls := st.calls + 1 }
      chunks).sleeps = st.sleeps
    rw [procChunks_sleeps]
  · show errorEventsOf
        ((procChunks { st with ops := st.ops ++ [PoolOp.getBest acc], calls := st.calls + 1 }
            chunks).events ++ [SSEvent.errorEvent e.message "api_error" none])
      = [SSEvent.errorEvent e.message "api_error" none]
    rw [errorEventsOf_append, errorEventsOf_allData _ hdata]
    simp [errorEventsOf, SSEvent.isData]

theorem procChunk_errorEvents (st : LoopSt) (c : Chunk) :
    errorEventsOf (procChunk st c).events = errorEventsOf st.events := by
  cases c with
  | bad raw => rfl
  | ok unwrapped usage =>
    simp [procChunk, errorEventsOf, List.filter_append, SSEvent.isData]

theorem procChunks_errorEvents : ∀ (chunks : List Chunk) (st : LoopSt),
    errorEventsOf (procChunks st chunks).events = errorEventsOf st.events
  | [], _ => rfl
  | c :: cs, st => by
    show errorEventsOf (procChunks (procChunk st c) cs).events = errorEventsOf st.events
    rw [procChunks_errorEvents cs (procChunk st c), procChunk_errorEvents]

/-- Claim C4, counterexample. When the caller disconnects while a
streaming upstream call is in flight, the handler returns early at
gemini.js line 188 with the status variable still at its initial value
success, so the request log records status success with a null error
message, not status error with message client disconnected as the
claim states. -/
theorem c4_counterexample :
    (runStream ⟨true, 2, 1000,
      fun _ => (1, .failure [] ⟨"network error", none⟩ true)⟩).log
      = mkLog (some 1) "success" none none ∧
    (runStream ⟨true, 2, 1000,
      fun _ => (1, .failure [] ⟨"network error", none⟩ true)⟩).log.status ≠ "error" := by
  have h : (runStream ⟨true, 2, 1000,
      fun _ => (1, .failure [] ⟨"network error", none⟩ true)⟩).log
      = mkLog (some 1) "success" none none := by
    simp [runStream, streamLoop, renderStream, initSt, procChunks]
  exact ⟨h, by rw [h]; decide⟩

/-- Claim C4, amended: when the caller disconnects during a streaming
upstream call, the dispatcher performs no retry (exactly one more
upstream call and selection happened), releases the model slot and the
account lock, writes no further event, does not end the stream
explicitly, and records a request log with status = success and a null
error message, because the early return after the abort skips the
error handling path. -/
theorem c4_disconnect_behaviour (outs : Nat → Nat × StreamOutcome)
    (maxR baseD attemptPrev : Nat) (st : LoopSt) (acc : Nat)
    (chunks : List Chunk) (e : UpErr)
    (hout : outs (attemptPrev + 1) = (acc, StreamOutcome.failure chunks e true)) :
    (renderStream (streamLoop outs maxR baseD attemptPrev st)).calls = st.calls + 1 ∧
    (renderStream (streamLoop outs maxR baseD attemptPrev st)).ops =
      st.ops ++ [PoolOp.getBest acc, PoolOp.unlock acc] ∧
    (renderStream (streamLoop outs maxR baseD attemptPrev st)).sleeps = st.sleeps ∧
    (renderStream (streamLoop outs maxR baseD attemptPrev st)).ended = false ∧
    (renderStream (streamLoop outs maxR baseD attemptPrev st)).slotReleased = true ∧
    (renderStream (streamLoop outs maxR baseD attemptPrev st)).log
      = mkLog (some acc) "success" none none ∧
    (renderStream (streamLoop outs maxR baseD attemptPrev st)).status = "success" ∧
    (renderStream (streamLoop outs maxR baseD attemptPrev st)).errorMessage = none ∧
    errorEventsOf (renderStream (streamLoop outs maxR baseD attemptPrev st)).events
      = errorEventsOf st.events := by
  have hout2 : (outs (attemptPrev + 1)).2 = StreamOutcome.failure chunks e true := by rw [hout]
  have hout1 : (outs (attemptPrev + 1)).1 = acc := by rw [hout]
  have hstep := streamLoop_aborted_step outs maxR baseD attemptPrev st acc chunks e _
    hout2 hout1 rfl
  rw [hstep]
  refine ⟨?_, ?_, ?_, rfl, rfl, rfl, rfl, rfl, ?_⟩
  · show (procChunks { st with ops := st.ops ++ [PoolOp.getBest acc], calls := st.calls + 1 }
      chunks).calls = st.calls + 1
    rw [procChunks_calls]
  · show finishOps (procChunks { st with ops := st.ops ++ [PoolOp.getBest acc], calls := st.calls + 1 }
        chunks).ops (some acc)
      = st.ops ++ [PoolOp.getBest acc, PoolOp.unlock acc]
    rw [finishOps, procChunks_ops]
    simp
  · show (procChunks { st with ops := st.ops ++ [PoolOp.getBest acc], calls := st.calls + 1 }
      chunks).sleeps = st.sleeps
    rw [procChunks_sleeps]
  · show errorEventsOf (procChunks { st with ops := st.ops ++ [PoolOp.getBest acc], calls := st.calls + 1 }
        chunks).events
      = errorEventsOf st.events
    rw [procChunks_errorEvents]

/-- Claim C5, counterexample. The generic in-stream error chunk built
at gemini.js line 206 has only message and type fields; a streaming
request that fails with a non-capacity upstream error produces a
terminal error event with no code field at all, so the claim that
every terminal error event carries a code drawn from the four listed
values is false. -/
theorem c5_counterexample :
    (runStream ⟨true, 2, 1000,
      fun _ => (1, .failure [] ⟨"boom", none⟩ false)⟩).events
      = [SSEvent.errorEvent "boom" "api_error" none] ∧
    ((runStream ⟨true, 2, 1000,
      fun _ => (1, .failure [] ⟨"boom", none⟩ false)⟩).events.all errorEventHasCode) = false := by
  have hcap : isCapacityError ⟨"boom", none⟩ = false := by decide
  have h : (runStream ⟨true, 2, 1000,
      fun _ => (1, .failure [] ⟨"boom", none⟩ false)⟩).events
      = [SSEvent.errorEvent "boom" "api_error" none] := by
    simp [runStream, streamLoop, renderStream, initSt, procChunks, hcap]
  exact ⟨h, by rw [h]; decide⟩

/-- Claim C5, amended: every terminal error event written in-stream
after the headers are flushed has the error chunk shape with message
and type api_error; the code field is present only on the empty
upstream response event, where it is empty_upstream_response, and is
absent on every other terminal stream error. -/
theorem c5_error_event_codes (inp : StreamInput) (m t : String) (c : Option String)
    (hmem : SSEvent.errorEvent m t c ∈ (runStream inp).events) :
    t = "api_error" ∧ (c = none ∨ c = some "empty_upstream_response") := by
  by_cases hsl : inp.slotAvailable = true
  case neg =>
    exfalso
    have hrej : runStream inp = slotRejectStream := by simp [runStream, hsl]
    rw [hrej] at hmem
    simp [slotRejectStream] at hmem
  case pos =>
    have hrun : runStream inp =
        renderStream (streamLoop inp.outs inp.maxRetries inp.baseRetryDelayMs 0 initSt) := by
      simp [runStream, hsl]
    rw [hrun] at hmem
    have hdata := streamLoop_events_data inp.outs inp.maxRetries inp.baseRetryDelayMs 0 initSt
      (by intro ev hev; simp [initSt] at hev)
    rcases hr : streamLoop inp.outs inp.maxRetries inp.baseRetryDelayMs 0 initSt with
      ⟨st, acc⟩ | ⟨st, e, acc⟩ | ⟨st, acc⟩
    · rw [hr] at hmem hdata
      simp only [StreamStep.state] at hdata
      by_cases hsaw : st.sawAnyData = true
      · rw [renderStream, if_pos hsaw] at hmem
        dsimp only at hmem
        exact absurd (hdata _ hmem) (by simp [SSEvent.isData])
      · rw [renderStream, if_neg hsaw] at hmem
        dsimp only at hmem
        rw [List.mem_append] at hmem
        rcases hmem with h | h
        · exact absurd (hdata _ h) (by simp [SSEvent.isData])
        · rw [List.mem_singleton] at h
          injection h with h1 h2 h3
          exact ⟨h2, Or.inr h3⟩
    · rw [hr] at hmem hdata
      simp only [StreamStep.state] at hdata
      rw [renderStream] at hmem
      dsimp only at hmem
      rw [List.mem_append] at hmem
      rcases hmem with h | h
      · exact absurd (hdata _ h) (by simp [SSEvent.isData])
      · rw [List.mem_singleton] at h
        injection h with h1 h2 h3
        exact ⟨h2, Or.inl h3⟩
    · rw [hr] at hmem hdata
      simp only [StreamStep.state] at hdata
      rw [renderStream] at hmem
      dsimp only at hmem
      exact absurd (hdata _ hmem) (by simp [SSEvent.isData])

/-- Claim C6, counterexample. The marker checked by isCapacityError at
gemini.js line 84 is the longer string exhausted your capacity on this
model, so a message containing exactly the marker named by the claim,
exhausted your capacity, is not classified as capacity exhaustion, and
the non-streaming request surfaces HTTP 500 with code internal_error
instead of the claimed 429 with rate_limit_exceeded. -/
theorem c6_counterexample :
    isCapacityError ⟨"exhausted your capacity", none⟩ = false ∧
    (runChat ⟨true, 2, 1000,
      fun _ => (1, .failure ⟨"exhausted your capacity", none⟩)⟩).reply
      = (500, RespBody.err "exhausted your capacity" (some "api_error") "internal_error") := by
  have hcap : isCapacityError ⟨"exhausted your capacity", none⟩ = false := by decide
  refine ⟨hcap, ?_⟩
  simp [runChat, chatLoop, renderChat, initSt, hcap]

/-- Claim C6, amended: a failed attempt is classified as capacity
exhaustion exactly when its upstream HTTP status is 429 or its message
contains one of the markers exhausted your capacity on this model,
Resource has been exhausted, No capacity available; on a non-streaming
request a thrown error maps to HTTP 429 with code rate_limit_exceeded
when capacity classified and to HTTP 500 with code internal_error
otherwise. -/
theorem c6_capacity_markers_and_mapping (e : UpErr) (inp : ChatInput)
    (st : LoopSt) (e2 : UpErr) (acc : Option Nat)
    (hslot : inp.slotAvailable = true)
    (hloop : chatLoop inp.outs inp.maxRetries inp.baseRetryDelayMs 0 initSt
      = ChatStep.threw st e2 acc) :
    (isCapacityError e = true ↔
      (e.upstreamStatus = some 429 ∨
       includesStr e.message "exhausted your capacity on this model" = true ∨
       includesStr e.message "Resource has been exhausted" = true ∨
       includesStr e.message "No capacity available" = true)) ∧
    (runChat inp).reply =
      (if isCapacityError e2 then 429 else 500,
       RespBody.err e2.message (some "api_error")
         (if isCapacityError e2 then "rate_limit_exceeded" else "internal_error")) := by
  constructor
  · simp only [isCapacityError, Bool.or_eq_true, beq_iff_eq]
    tauto
  · simp only [runChat, if_pos hslot, hloop, renderChat]

/-- Claim C8: when the streaming attempt loop breaks cleanly while
sawAnyData is still false, the handler writes one in-stream error
event with code empty_upstream_response, marks the request failed,
ends the stream, and the finally block logs status error. -/
theorem c8_empty_upstream (inp : StreamInput) (st : LoopSt) (acc : Option Nat)
    (hslot : inp.slotAvailable = true)
    (hloop : streamLoop inp.outs inp.maxRetries inp.baseRetryDelayMs 0 initSt
      = StreamStep.completed st acc)
    (hempty : st.sawAnyData = false) :
    (runStream inp).events = st.events ++
      [SSEvent.errorEvent emptyUpstreamMsg "api_error" (some "empty_upstream_response")] ∧
    (runStream inp).status = "error" ∧
    (runStream inp).errorMessage = some emptyUpstreamMsg ∧
    (runStream inp).log.status = "error" ∧
    (runStream inp).ended = true := by
  have hrun : runStream inp = renderStream (StreamStep.completed st acc) := by
    simp [runStream, hslot, hloop]
  rw [hrun, renderStream, if_neg (by simp [hempty])]
  exact ⟨rfl, rfl, rfl, rfl, rfl⟩

/-- Claim C10: if the single upstream attempt of a streaming request
resolves cleanly after delivering only chunks that fail JSON parsing,
the handler writes no data event at all, yet reports no empty
upstream response, because sawAnyData was set before parsing and the
parse failures were swallowed: the stream carries no error event, the
status stays success and the request log records status success. -/
theorem c10_unparsed_chunks (inp : StreamInput) (a : Nat) (chunks : List Chunk)
    (hslot : inp.slotAvailable = true)
    (hout : inp.outs 1 = (a, StreamOutcome.success chunks))
    (hne : chunks ≠ [])
    (hbad : ∀ ch ∈ chunks, ch.isBad = true) :
    (runStream inp).events = [] ∧
    (runStream inp).status = "success" ∧
    (runStream inp).errorMessage = none ∧
    (runStream inp).log = mkLog (some a) "success" none none ∧
    (runStream inp).calls = 1 := by
  have h2 : (inp.outs (0 + 1)).2 = StreamOutcome.success chunks := by rw [hout]
  have h1 : (inp.outs (0 + 1)).1 = a := by rw [hout]
  have hproc := procChunks_allBad chunks
    { initSt with ops := initSt.ops ++ [PoolOp.getBest a], calls := initSt.calls + 1 }
    hne hbad
  have hloop : streamLoop inp.outs inp.maxRetries inp.baseRetryDelayMs 0 initSt =
      StreamStep.completed
        { ops := [PoolOp.getBest a, PoolOp.markRecovered a], events := [], sleeps := [],
          chunksLogged := 0, sawAnyData := true, lastUsage := none, calls := 1 } (some a) := by
    rw [streamLoop, h2]
    simp only [h1]
    rw [hproc]
    rfl
  have hrun : runStream inp = renderStream (streamLoop inp.outs inp.maxRetries
      inp.baseRetryDelayMs 0 initSt) := by
    simp [runStream, hslot]
  rw [hrun, hloop, renderStream, if_pos rfl]
  exact ⟨rfl, rfl, rfl, rfl, rfl⟩

/-- Witness instantiating claim C2 on a concrete run whose failing
attempt first delivered one parsed data chunk. -/
theorem c2_witness :
    (renderStream (streamLoop
        (fun _ => (2, StreamOutcome.failure [Chunk.ok "x" none]
          ⟨"No capacity available", none⟩ false))
        2 1000 0 initSt)).calls = 1 ∧
    (renderStream (streamLoop
        (fun _ => (2, StreamOutcome.failure [Chunk.ok "x" none]
          ⟨"No capacity available", none⟩ false))
        2 1000 0 initSt)).ops
      = [PoolOp.getBest 2, PoolOp.markLimited 2 "No capacity available", PoolOp.unlock 2] ∧
    (renderStream (streamLoop
        (fun _ => (2, StreamOutcome.failure [Chunk.ok "x" none]
          ⟨"No capacity available", none⟩ false))
        2 1000 0 initSt)).sleeps = [] ∧
    errorEventsOf (renderStream (streamLoop
        (fun _ => (2, StreamOutcome.failure [Chunk.ok "x" none]
          ⟨"No capacity available", none⟩ false))
        2 1000 0 initSt)).events
      = [SSEvent.errorEvent "No capacity available" "api_error" none] ∧
    (renderStream (streamLoop
        (fun _ => (2, StreamOutcome.failure [Chunk.ok "x" none]
          ⟨"No capacity available", none⟩ false))
        2 1000 0 initSt)).ended = true ∧
    (renderStream (streamLoop
        (fun _ => (2, StreamOutcome.failure [Chunk.ok "x" none]
          ⟨"No capacity available", none⟩ false))
        2 1000 0 initSt)).status = "error" :=
  c2_no_retry_after_flush
    (fun _ => (2, StreamOutcome.failure [Chunk.ok "x" none]
      ⟨"No capacity available", none⟩ false))
    2 1000 0 initSt 2 [Chunk.ok "x" none]
    ⟨"No capacity available", none⟩ (by decide) (by decide) rfl (by decide)

/-- Witness instantiating claim C4 on a concrete disconnected run. -/
theorem c4_witness :
    (renderStream (streamLoop
        (fun _ => (3, StreamOutcome.failure [Chunk.bad "z"] ⟨"network error", none⟩ true))
        2 1000 0 initSt)).calls = 1 ∧
    (renderStream (streamLoop
        (fun _ => (3, StreamOutcome.failure [Chunk.bad "z"] ⟨"network error", none⟩ true))
        2 1000 0 initSt)).ops = [PoolOp.getBest 3, PoolOp.unlock 3] ∧
    (renderStream (streamLoop
        (fun _ => (3, StreamOutcome.failure [Chunk.bad "z"] ⟨"network error", none⟩ true))
        2 1000 0 initSt)).sleeps = [] ∧
    (renderStream (streamLoop
        (fun _ => (3, StreamOutcome.failure [Chunk.bad "z"] ⟨"network error", none⟩ true))
        2 1000 0 initSt)).ended = false ∧
    (renderStream (streamLoop
        (fun _ => (3, StreamOutcome.failure [Chunk.bad "z"] ⟨"network error", none⟩ true))
        2 1000 0 initSt)).slotReleased = true ∧
    (renderStream (streamLoop
        (fun _ => (3, StreamOutcome.failure [Chunk.bad "z"] ⟨"network error", none⟩ true))
        2 1000 0 initSt)).log = mkLog (some 3) "success" none none ∧
    (renderStream (streamLoop
        (fun _ => (3, StreamOutcome.failure [Chunk.bad "z"] ⟨"network error", none⟩ true))
        2 1000 0 initSt)).status = "success" ∧
    (renderStream (streamLoop
        (fun _ => (3, StreamOutcome.failure [Chunk.bad "z"] ⟨"network error", none⟩ true))
        2 1000 0 initSt)).errorMessage = none ∧
    errorEventsOf (renderStream (streamLoop
        (fun _ => (3, StreamOutcome.failure [Chunk.bad "z"] ⟨"network error", none⟩ true))
        2 1000 0 initSt)).events = [] :=
  c4_disconnect_behaviour
    (fun _ => (3, StreamOutcome.failure [Chunk.bad "z"] ⟨"network error", none⟩ true))
    2 1000 0 initSt 3 [Chunk.bad "z"] ⟨"network error", none⟩ rfl

/-- Witness instantiating claim C5 on the empty upstream event. -/
theorem c5_witness :
    "api_error" = "api_error" ∧
    ((some "empty_upstream_response" : Option String) = none ∨
     (some "empty_upstream_response" : Option String) = some "empty_upstream_response") :=
  c5_error_event_codes ⟨true, 2, 1000, fun _ => (1, StreamOutcome.success [])⟩
    emptyUpstreamMsg "api_error" (some "empty_upstream_response")
    (by simp [runStream, streamLoop, renderStream, initSt, procChunks])

/-- Witness instantiating claim C6 on concrete errors. -/
theorem c6_witness :
    (isCapacityError ⟨"Resource has been exhausted", none⟩ = true ↔
      ((⟨"Resource has been exhausted", none⟩ : UpErr).upstreamStatus = some 429 ∨
       includesStr (⟨"Resource has been exhausted", none⟩ : UpErr).message
         "exhausted your capacity on this model" = true ∨
       includesStr (⟨"Resource has been exhausted", none⟩ : UpErr).message
         "Resource has been exhausted" = true ∨
       includesStr (⟨"Resource has been exhausted", none⟩ : UpErr).message
         "No capacity available" = true)) ∧
    (runChat ⟨true, 2, 1000, fun _ => (1, ChatOutcome.failure ⟨"boom", none⟩)⟩).reply =
      (if isCapacityError ⟨"boom", none⟩ then 429 else 500,
       RespBody.err "boom" (some "api_error")
         (if isCapacityError ⟨"boom", none⟩ then "rate_limit_exceeded" else "internal_error")) :=
  c6_capacity_markers_and_mapping ⟨"Resource has been exhausted", none⟩
    ⟨true, 2, 1000, fun _ => (1, ChatOutcome.failure ⟨"boom", none⟩)⟩
    ⟨[PoolOp.getBest 1], [], [], 0, false, none, 1⟩ ⟨"boom", none⟩ (some 1) rfl
    (by
      have hcap : isCapacityError ⟨"boom", none⟩ = false := by decide
      simp [chatLoop, initSt, hcap])

/-- Witness instantiating claim C7 on concrete rejected requests. -/
theorem c7_witness :
    (runChat ⟨false, 2, 1000, fun _ => (1, ChatOutcome.failure ⟨"x", none⟩)⟩).reply =
      (429, RespBody.err "Model concurrency limit reached, please retry later"
        none "model_concurrency_limit") ∧
    (runChat ⟨false, 2, 1000, fun _ => (1, ChatOutcome.failure ⟨"x", none⟩)⟩).calls = 0 ∧
    (runChat ⟨false, 2, 1000, fun _ => (1, ChatOutcome.failure ⟨"x", none⟩)⟩).ops = [] ∧
    (runChat ⟨false, 2, 1000, fun _ => (1, ChatOutcome.failure ⟨"x", none⟩)⟩).log.status
      = "error" ∧
    (runChat ⟨false, 2, 1000, fun _ => (1, ChatOutcome.failure ⟨"x", none⟩)⟩).log.errorMessage
      = some "Model concurrency limit reached" ∧
    (runStream ⟨false, 2, 1000, fun _ => (1, StreamOutcome.success [])⟩).reply =
      some (429, RespBody.err "Model concurrency limit reached, please retry later"
        none "model_concurrency_limit") ∧
    (runStream ⟨false, 2, 1000, fun _ => (1, StreamOutcome.success [])⟩).events = [] ∧
    (runStream ⟨false, 2, 1000, fun _ => (1, StreamOutcome.success [])⟩).calls = 0 ∧
    (runStream ⟨false, 2, 1000, fun _ => (1, StreamOutcome.success [])⟩).ops = [] ∧
    (runStream ⟨false, 2, 1000, fun _ => (1, StreamOutcome.success [])⟩).log.status = "error" ∧
    (runStream ⟨false, 2, 1000, fun _ => (1, StreamOutcome.success [])⟩).log.errorMessage
      = some "Model concurrency limit reached" :=
  c7_slot_rejection ⟨false, 2, 1000, fun _ => (1, ChatOutcome.failure ⟨"x", none⟩)⟩
    ⟨false, 2, 1000, fun _ => (1, StreamOutcome.success [])⟩ rfl rfl

/-- Witness instantiating claim C8 on a concrete empty stream. -/
theorem c8_witness :
    (runStream ⟨true, 2, 1000, fun _ => (1, StreamOutcome.success [])⟩).events =
      [SSEvent.errorEvent emptyUpstreamMsg "api_error" (some "empty_upstream_response")] ∧
    (runStream ⟨true, 2, 1000, fun _ => (1, StreamOutcome.success [])⟩).status = "error" ∧
    (runStream ⟨true, 2, 1000, fun _ => (1, StreamOutcome.success [])⟩).errorMessage
      = some emptyUpstreamMsg ∧
    (runStream ⟨true, 2, 1000, fun _ => (1, StreamOutcome.success [])⟩).log.status = "error" ∧
    (runStream ⟨true, 2, 1000, fun _ => (1, StreamOutcome.success [])⟩).ended = true :=
  c8_empty_upstream ⟨true, 2, 1000, fun _ => (1, StreamOutcome.success [])⟩
    ⟨[PoolOp.getBest 1, PoolOp.markRecovered 1], [], [], 0, false, none, 1⟩ (some 1) rfl
    (by simp [streamLoop, initSt, procChunks]) rfl

/-- Witness instantiating claim C9 on a concrete envelope. -/
theorem c9_witness :
    (antigravityRequestBase "u" imageGenModelId ⟨none, none⟩ 7).requestId = "agent-u" ∧
    (antigravityRequestBase "u" imageGenModelId ⟨none, none⟩ 7).userAgent = "antigravity" ∧
    (antigravityRequestBase "u" imageGenModelId ⟨none, none⟩ 7).requestType = "image_gen" ∧
    (antigravityRequestBase "u" imageGenModelId ⟨none, none⟩ 7).sessionId
      = generateSessionId 7 ∧
    (antigravityRequestBase "u" imageGenModelId ⟨none, none⟩ 7).generationConfig.candidateCount
      = some 1 :=
  ⟨(c9_envelope_fields "u" imageGenModelId ⟨none, none⟩ 7).1,
   (c9_envelope_fields "u" imageGenModelId ⟨none, none⟩ 7).2.1,
   ((c9_envelope_fields "u" imageGenModelId ⟨none, none⟩ 7).2.2.1).mpr rfl,
   (c9_envelope_fields "u" imageGenModelId ⟨none, none⟩ 7).2.2.2.1 rfl,
   (c9_envelope_fields "u" imageGenModelId ⟨none, none⟩ 7).2.2.2.2.2 rfl⟩

/-- Witness instantiating claim C10 on a single unparsable chunk. -/
theorem c10_witness :
    (runStream ⟨true, 2, 1000, fun _ => (5, StreamOutcome.success [Chunk.bad "oops"])⟩).events
      = [] ∧
    (runStream ⟨true, 2, 1000, fun _ => (5, StreamOutcome.success [Chunk.bad "oops"])⟩).status
      = "success" ∧
    (runStream ⟨true, 2, 1000,
        fun _ => (5, StreamOutcome.success [Chunk.bad "oops"])⟩).errorMessage = none ∧
    (runStream ⟨true, 2, 1000, fun _ => (5, StreamOutcome.success [Chunk.bad "oops"])⟩).log
      = mkLog (some 5) "success" none none ∧
    (runStream ⟨true, 2, 1000, fun _ => (5, StreamOutcome.success [Chunk.bad "oops"])⟩).calls
      = 1 :=
  c10_unparsed_chunks ⟨true, 2, 1000, fun _ => (5, StreamOutcome.success [Chunk.bad "oops"])⟩
    5 [Chunk.bad "oops"] rfl rfl (by decide) (by decide)
